import Mathlib

/-!
Verification of the prescription-analysis pipeline of this repository
(`app/services/ner_service.py`, `app/services/rxnorm.py`,
`app/api/prescriptions.py`) against its natural-language specification.

The Python code is shallowly embedded: pure string/list manipulation is
translated to executable Lean functions over `String`/`List Char`;
Python `float` confidence arithmetic is modelled with `ℚ` (every constant
involved — 0.5, 0.6, 0.2, 0.1, 0.95 — combines here exactly as the IEEE
doubles do on the concrete inputs appearing in the claims, so the rational
model agrees with the Python values); network traffic is modelled by an
explicit oracle `Net` mapping a URL to a response, and every service
function returns the list of URLs it requested alongside its result, so
"performs no network call" is the statement that this list is empty.
The regular-expression patterns of `_extract_with_regex` are embedded via
a small backtracking matcher (`RE`, `reM`) implementing Python `re`
semantics (leftmost match, preference-order alternation, greedy
quantifiers, word boundaries, IGNORECASE) for exactly the constructs those
six patterns use.
-/

namespace Xcoders

/-- Python `str.lower()` restricted to ASCII (all inputs in this
development are ASCII). -/
def pyLower (s : String) : String :=
  String.mk (s.toList.map Char.toLower)

/-- Python `str.upper()` restricted to ASCII. -/
def pyUpper (s : String) : String :=
  String.mk (s.toList.map Char.toUpper)

/-- Python whitespace class `\s` (ASCII): space, tab, newline, carriage
return, vertical tab, form feed. -/
def pyIsSpace (c : Char) : Bool :=
  c = ' ' || c = '\t' || c = '\n' || c = '\r' || c = '\x0b' || c = '\x0c'

/-- Python regex word character `\w` (ASCII): alphanumeric or underscore. -/
def isWordChar (c : Char) : Bool :=
  c.isAlphanum || c = '_'

/-- Whether `n` is a contiguous infix of `h` (character lists). -/
def listInfix (n h : List Char) : Bool :=
  (List.range (h.length + 1)).any (fun i => n.isPrefixOf (h.drop i))

/-- Python's substring containment `needle in hay`. -/
def pyIn (needle hay : String) : Bool :=
  listInfix needle.toList hay.toList

/-- Python `str.strip()` (strip ASCII whitespace from both ends). -/
def pyStrip (s : String) : String :=
  String.mk (((s.toList.dropWhile pyIsSpace).reverse.dropWhile pyIsSpace).reverse)

/-- Python `str.endswith(t)`. -/
def pyEndsWith (s t : String) : Bool :=
  t.toList.isSuffixOf s.toList

/-- Python `str.startswith(t)`. -/
def pyStartsWith (s t : String) : Bool :=
  t.toList.isPrefixOf s.toList

/-- Python `str.title()`: first letter of each alphabetic run uppercased,
the rest lowercased. -/
def pyTitleGo : Bool → List Char → List Char
  | _, [] => []
  | prevAlpha, c :: r =>
    (if c.isAlpha && !prevAlpha then c.toUpper else c.toLower) :: pyTitleGo c.isAlpha r

/-- Python `str.title()`. -/
def pyTitle (s : String) : String :=
  String.mk (pyTitleGo false s.toList)

/-- Python `re.sub(r"\s+", " ", ·)` on a string with no leading whitespace:
collapse each whitespace run to a single space.  The `Bool` argument
records whether the previous character was whitespace. -/
def collapseWsGo : Bool → List Char → List Char
  | _, [] => []
  | prev, c :: rest =>
    if pyIsSpace c then
      if prev then collapseWsGo true rest else ' ' :: collapseWsGo true rest
    else c :: collapseWsGo false rest

/-- Python `re.sub(r"\s+", " ", text.strip())` — the first step of
`_preprocess_text`. -/
def collapseWs (s : String) : String :=
  String.mk (collapseWsGo false (pyStrip s).toList)

/-- One `re.sub(rf"\b{abbrev}\b", full, text, flags=re.IGNORECASE)` step.
Since every abbreviation consists solely of word characters, a
`\b…\b`-delimited occurrence is exactly a maximal word-character run that
case-insensitively equals the abbreviation; such runs are replaced by
`fu`, everything else is copied.  The recursion is structural on a fuel
argument (kept so that concrete evaluation reduces inside the kernel);
each step consumes at least one character, so fuel equal to the input
length always suffices. -/
def replaceTok (ab fu : List Char) : Nat → List Char → List Char
  | _, [] => []
  | 0, l => l
  | fuel + 1, c :: rest =>
    if isWordChar c then
      let run := c :: rest.takeWhile isWordChar
      let rest' := rest.dropWhile isWordChar
      (if run.map Char.toLower = ab then fu else run) ++ replaceTok ab fu fuel rest'
    else c :: replaceTok ab fu fuel rest

/-- The abbreviation table of `_preprocess_text`, in source (insertion)
order. -/
def abbreviations : List (String × String) :=
  [("od", "once daily"), ("bd", "twice daily"), ("bid", "twice daily"),
   ("tid", "three times daily"), ("qid", "four times daily"),
   ("qds", "four times daily"), ("prn", "as needed"), ("po", "by mouth"),
   ("iv", "intravenous"), ("im", "intramuscular"), ("sc", "subcutaneous")]

/-- Embedding of `MedicalNERService._preprocess_text`: collapse whitespace, then apply
each word-boundary abbreviation replacement in turn. -/
def _preprocess_text (text : String) : String :=
  abbreviations.foldl
    (fun t p => String.mk (replaceTok p.1.toList p.2.toList t.toList.length t.toList))
    (collapseWs text)

/-! ### A regular-expression matcher with Python `re` semantics

Only the constructs appearing in the six patterns of
`_extract_with_regex` are supported: character predicates, concatenation,
preference-ordered alternation, greedy `*`/`+`/`?`, numbered capture
groups, and the zero-width word boundary `\b`.  All patterns are compiled
with `re.IGNORECASE`, which is reflected directly in the character
predicates (`[A-Z]` and `[a-z]` both match any ASCII letter, literals
match case-insensitively). -/

/-- Regular-expression abstract syntax. -/
inductive RE where
  | eps
  | pred (p : Char → Bool)
  | cat (a b : RE)
  | alt (a b : RE)
  | star (r : RE)
  | opt (r : RE)
  | group (idx : Nat) (r : RE)
  | wordB
deriving Inhabited

/-- Matcher state: the character preceding the current position (for
`\b`), the remaining input, and the capture-group assignments made so
far. -/
structure MCtx where
  prev : Option Char
  rest : List Char
  caps : List (Nat × String)

/-- Is the boundary between `prev` and the head of `rest` a `\b`
position? -/
def atWordB (prev : Option Char) (rest : List Char) : Bool :=
  let a := match prev with | none => false | some c => isWordChar c
  let b := match rest with | [] => false | c :: _ => isWordChar c
  a != b

/-- Backtracking matcher in continuation-passing style.  Alternatives are
tried left first and quantifiers are greedy, so the first success found
is the one Python's `re` engine reports.  `fuel` bounds the number of
star unfoldings; every star iteration is required to consume at least one
character (as in Python, which never repeats an empty quantifier match),
so `input length + 1` fuel is always sufficient. -/
def reM : Nat → RE → MCtx → (MCtx → Option MCtx) → Option MCtx
  | 0, _, _, _ => none
  | fuel + 1, re, ctx, k =>
    match re with
    | .eps => k ctx
    | .pred p =>
      match ctx.rest with
      | [] => none
      | c :: cs => if p c then k ⟨some c, cs, ctx.caps⟩ else none
    | .wordB => if atWordB ctx.prev ctx.rest then k ctx else none
    | .cat a b => reM fuel a ctx (fun c1 => reM fuel b c1 k)
    | .alt a b => (reM fuel a ctx k).orElse (fun _ => reM fuel b ctx k)
    | .opt r => (reM fuel r ctx k).orElse (fun _ => k ctx)
    | .group i r =>
      reM fuel r ctx (fun c' =>
        k ⟨c'.prev, c'.rest,
           c'.caps ++ [(i, String.mk (ctx.rest.take (ctx.rest.length - c'.rest.length)))]⟩)
    | .star r =>
      (reM fuel r ctx (fun c' =>
        if c'.rest.length < ctx.rest.length then reM fuel (.star r) c' k
        else none)).orElse
      (fun _ => k ctx)

/-- Number of syntax nodes of a regex, used to budget matcher fuel. -/
def reSize : RE → Nat
  | .eps => 1
  | .pred _ => 1
  | .wordB => 1
  | .cat a b => reSize a + reSize b + 1
  | .alt a b => reSize a + reSize b + 1
  | .opt r => reSize r + 1
  | .group _ r => reSize r + 1
  | .star r => reSize r + 1

/-- Attempt a match anchored at the current position; on success return
the capture assignments and the number of characters consumed.  The fuel
`(reSize re + 2) * (s.length + 2)` dominates the deepest possible call
chain: fuel decreases once per syntax node entered, and a starred
subexpression can only be re-entered after consuming a character. -/
def reFind (re : RE) (prev : Option Char) (s : List Char) :
    Option (List (Nat × String) × Nat) :=
  match reM ((reSize re + 2) * (s.length + 2)) re ⟨prev, s, []⟩ some with
  | some c' => some (c'.caps, s.length - c'.rest.length)
  | none => none

/-- Python `re.finditer`: scan left to right, reporting non-overlapping matches
and resuming at the end of each match (advancing one character past a
zero-width match, as Python does). -/
def findIt (re : RE) : Nat → Option Char → List Char → List (List (Nat × String))
  | 0, _, _ => []
  | fuel + 1, prev, s =>
    match reFind re prev s with
    | some (caps, n) =>
      if n = 0 then
        match s with
        | [] => [caps]
        | c :: cs => caps :: findIt re fuel (some c) cs
      else
        let prev' := match (s.take n).getLast? with
          | some c => some c
          | none => prev
        caps :: findIt re fuel prev' (s.drop n)
    | none =>
      match s with
      | [] => []
      | c :: cs => findIt re fuel (some c) cs

/-- All matches of `re` in `s`, as capture-assignment lists. -/
def finditer (re : RE) (s : String) : List (List (Nat × String)) :=
  findIt re (s.toList.length + 1) none s.toList

/-- The value of capture group `i` (Python keeps the last assignment;
`none` when the group did not participate in the match). -/
def capOf (caps : List (Nat × String)) (i : Nat) : Option String :=
  (caps.reverse.find? (fun p => p.1 = i)).map (fun p => p.2)

/-! Pattern-building helpers. -/

/-- Concatenation of a list of regexes. -/
def reSeq (l : List RE) : RE := l.foldr RE.cat RE.eps

/-- Preference-ordered alternation of a non-empty list of regexes. -/
def reAlt : List RE → RE
  | [] => RE.eps
  | [r] => r
  | r :: rs => RE.alt r (reAlt rs)

/-- A case-insensitive literal (`re.IGNORECASE`). -/
def litCI (s : String) : RE :=
  reSeq (s.toList.map (fun a => RE.pred (fun c => c.toLower = a.toLower)))

/-- Class `[A-Z]` under `re.IGNORECASE`: any ASCII letter. -/
def clAZ : RE := RE.pred Char.isAlpha

/-- Class `[a-z]` under `re.IGNORECASE`: any ASCII letter. -/
def claz : RE := RE.pred Char.isAlpha

/-- Class `\w`. -/
def clW : RE := RE.pred isWordChar

/-- Class `\d`. -/
def clD : RE := RE.pred Char.isDigit

/-- Class `\s`. -/
def clS : RE := RE.pred pyIsSpace

/-- Greedy `r+`. -/
def rePlus (r : RE) : RE := RE.cat r (RE.star r)

/-- The drug-name group shared by all six patterns:
`([A-Z][a-z]+(?:\s+[A-Z][a-z]+)*)` as group 1. -/
def gDrug : RE :=
  RE.group 1 (reSeq [clAZ, rePlus claz, RE.star (reSeq [rePlus clS, clAZ, rePlus claz])])

/-- Group `i`: `(\d+(?:\.\d+)?\s*(?:mg|mcg|g|ml|units?))`. -/
def gStrength (i : Nat) : RE :=
  RE.group i (reSeq
    [rePlus clD,
     RE.opt (reSeq [litCI ".", rePlus clD]),
     RE.star clS,
     reAlt [litCI "mg", litCI "mcg", litCI "g", litCI "ml",
            reSeq [litCI "unit", RE.opt (litCI "s")]]])

/-- Group `i`: `(\d+\s*(?:days?|weeks?|months?|hours?))`. -/
def gDuration (i : Nat) : RE :=
  RE.group i (reSeq
    [rePlus clD, RE.star clS,
     reAlt [reSeq [litCI "day", RE.opt (litCI "s")],
            reSeq [litCI "week", RE.opt (litCI "s")],
            reSeq [litCI "month", RE.opt (litCI "s")],
            reSeq [litCI "hour", RE.opt (litCI "s")]]])

/-- Pattern 1: drug + strength + optional frequency word + duration. -/
def pat1 : RE :=
  reSeq [RE.wordB, gDrug, rePlus clS, gStrength 2, rePlus clS,
         RE.opt (reSeq [RE.group 3 (rePlus clW), rePlus clS]),
         RE.opt (reSeq [litCI "for", rePlus clS]),
         gDuration 4]

/-- Pattern 2: drug + strength + frequency word. -/
def pat2 : RE :=
  reSeq [RE.wordB, gDrug, rePlus clS, gStrength 2, rePlus clS,
         RE.group 3 (rePlus clW)]

/-- Pattern 3: drug + strength. -/
def pat3 : RE :=
  reSeq [RE.wordB, gDrug, rePlus clS, gStrength 2]

/-- Pattern 4: drug + word + duration. -/
def pat4 : RE :=
  reSeq [RE.wordB, gDrug, rePlus clS, RE.group 2 (rePlus clW), rePlus clS,
         RE.opt (reSeq [litCI "for", rePlus clS]),
         gDuration 3]

/-- Pattern 5: drug + word. -/
def pat5 : RE :=
  reSeq [RE.wordB, gDrug, rePlus clS, RE.group 2 (rePlus clW)]

/-- Pattern 6: bare capitalized phrase. -/
def pat6 : RE :=
  reSeq [RE.wordB, gDrug, RE.wordB]

/-- The ordered pattern list of `_extract_with_regex`. -/
def patterns : List RE := [pat1, pat2, pat3, pat4, pat5, pat6]

/-! ### Data model and the pattern-based extractor -/

/-- Record `app.models.ExtractedMedication` (confidence modelled with `ℚ`). -/
structure ExtractedMedication where
  drug_name : String
  strength : Option String
  frequency : Option String
  duration : Option String
  route : String
  confidence : ℚ
deriving Repr, DecidableEq

/-- Embedding of the `ExtractedMedication` pydantic constructor: the
`clean_drug_name` validator (`app/models.py`) normalizes the stored drug
name to `v.strip().title()` on every construction, so records always
carry a stripped, title-cased name. -/
def mkExtractedMedication (drug_name : String)
    (strength frequency duration : Option String) (route : String)
    (confidence : ℚ) : ExtractedMedication :=
  ⟨pyTitle (pyStrip drug_name), strength, frequency, duration, route, confidence⟩

/-- The `common_meds` lexicon of `_extract_with_regex`, in source order. -/
def common_meds : List String :=
  ["aspirin", "ibuprofen", "acetaminophen", "paracetamol", "amoxicillin",
   "penicillin", "warfarin", "insulin", "metformin", "lisinopril",
   "atorvastatin", "omeprazole", "pantoprazole", "metoprolol",
   "amlodipine", "hydrochlorothiazide", "furosemide", "spironolactone",
   "digoxin", "phenytoin", "carbamazepine", "valproate", "lithium",
   "morphine", "codeine", "tramadol", "oxycodone", "hydrocodone",
   "diazepam", "alprazolam", "lorazepam", "clonazepam", "zolpidem",
   "sertraline", "fluoxetine", "escitalopram", "venlafaxine", "bupropion",
   "quetiapine", "risperidone", "olanzapine", "aripiprazole"]

/-- The pharmacological suffixes checked by `_is_medication`. -/
def med_suffixes : List String :=
  ["ine", "ol", "ide", "ate", "am", "il", "in", "an"]

/-- The medication-name beginnings checked by `_is_medication`. -/
def med_beginnings : List String :=
  ["met", "lis", "ome", "panto", "hydro", "spiro"]

/-- The non-medication words checked by `_is_medication`. -/
def non_med_words : List String :=
  ["tablet", "capsule", "injection", "cream", "ointment", "dose", "take"]

/-- Embedding of `MedicalNERService._is_medication`: sequential checks exactly as in
the source — lexicon substring, then suffix, then word beginning, then
non-medication-word rejection, and `True` when nothing matched. -/
def _is_medication (text : String) : Bool :=
  let text_lower := pyLower text
  if common_meds.any (fun med => pyIn med text_lower) then true
  else if med_suffixes.any (fun suf => pyEndsWith text_lower suf) then true
  else if med_beginnings.any (fun pre => pyStartsWith text_lower pre) then true
  else if non_med_words.any (fun word => pyIn word text_lower) then false
  else true

/-- The `frequency_map` of `_extract_with_regex`, in source order. -/
def frequency_map : List (String × String) :=
  [("od", "once daily"), ("bd", "twice daily"), ("bid", "twice daily"),
   ("tid", "three times daily"), ("qid", "four times daily"),
   ("qds", "four times daily"), ("prn", "as needed"),
   ("daily", "once daily"), ("twice", "twice daily"),
   ("thrice", "three times daily")]

/-- The `route_map` of `_extract_with_regex`, in source order. -/
def route_map : List (String × String) :=
  [("po", "oral"), ("iv", "intravenous"), ("im", "intramuscular"),
   ("sc", "subcutaneous"), ("top", "topical"), ("inh", "inhalation")]

/-- Processing of one regex match inside `_extract_with_regex`: the
source reads the capture tuple positionally (`groups[1]` is always taken
as the strength, `groups[2]` as the frequency, `groups[3]` as the
duration, whatever the pattern's groups actually denote), validates the
drug token, normalizes the frequency, picks the route, scores the
confidence and appends unless a case-insensitive duplicate exists.  The
record is built through the pydantic constructor, whose validator
title-cases the stored drug name (the duplicate check compares the
stored name against the raw token, both lowercased, so it is unaffected
by the casing). -/
def processMatch (text : String) (meds : List ExtractedMedication)
    (caps : List (Nat × String)) : List ExtractedMedication :=
  match capOf caps 1 with
  | none => meds
  | some g0 =>
    if g0 = "" then meds
    else
      let drug_name := pyStrip g0
      if ! _is_medication drug_name then meds
      else
        let strength := (capOf caps 2).filter (fun s => s ≠ "")
        let frequency0 := (capOf caps 3).filter (fun s => s ≠ "")
        let duration := (capOf caps 4).filter (fun s => s ≠ "")
        let frequency := frequency0.map (fun f =>
          match frequency_map.find? (fun p => p.1 = pyLower f) with
          | some p => p.2
          | none => f)
        let route :=
          if strength.isSome
              && route_map.any (fun p => pyIn p.1 (pyLower text)) then
            match route_map.find? (fun p => pyIn p.1 (pyLower text)) with
            | some p => p.2
            | none => "oral"
          else "oral"
        let confidence : ℚ :=
          6/10 + (if strength.isSome then 2/10 else 0)
               + (if frequency.isSome then 1/10 else 0)
               + (if duration.isSome then 1/10 else 0)
        let medication : ExtractedMedication :=
          mkExtractedMedication drug_name strength frequency duration route
            (min confidence (95/100))
        if ! meds.any (fun m => pyLower m.drug_name = pyLower drug_name) then
          meds ++ [medication]
        else meds

/-- Embedding of `MedicalNERService._extract_with_regex`: run the six patterns in
order over the text, process every match, and when nothing was accepted
fall back to a direct lexicon substring scan (title-cased name,
confidence 0.5, route "oral"). -/
def _extract_with_regex (text : String) : List ExtractedMedication :=
  let meds := patterns.foldl
    (fun acc pat => (finditer pat text).foldl (processMatch text) acc) []
  if meds = [] then
    common_meds.foldl
      (fun acc med_name =>
        if pyIn med_name (pyLower text) then
          acc ++ [mkExtractedMedication (pyTitle med_name) none none none "oral" (1/2)]
        else acc)
      []
  else meds

/-! ### RxNorm service (`app/services/rxnorm.py`)

Network traffic is modelled by an oracle `Net : String → NetResult`
mapping a request URL to either a parsed-JSON HTTP response or a raised
network exception.  Every service function additionally returns the list
of URLs it requested, in order, so that "no network call is performed"
is the statement that this log is empty.  Python-level exceptions during
response parsing (attribute/type/index errors on unexpected JSON shapes)
are modelled by `Option`, with `none` landing in the corresponding
`except` handler of the source. -/

/-- Parsed JSON values. -/
inductive J where
  | null
  | jstr (s : String)
  | jnum (n : Int)
  | jarr (l : List J)
  | jobj (l : List (String × J))
deriving Inhabited

/-- Is this JSON value `null`? -/
def jIsNull : J → Bool
  | .null => true
  | _ => false

/-- Outcome of one `requests.get`: an HTTP response with status code and
parsed JSON body, or a raised network exception. -/
inductive NetResult where
  | ok (status : Nat) (body : J)
  | err

/-- The network oracle. -/
def Net := String → NetResult

/-- The configured `rxnorm_api_base_url` (`app/core/config.py`). -/
def base_url : String := "https://rxnav.nlm.nih.gov/REST"

/-- Python `dict.get(k, d)`: `none` models the `AttributeError` raised
when the receiver is not a dict. -/
def jDictGet (j : J) (k : String) (d : J) : Option J :=
  match j with
  | .jobj l => some (((l.find? (fun p => p.1 = k)).map Prod.snd).getD d)
  | _ => none

/-- Python list indexing: `none` models `TypeError`/`IndexError`. -/
def jIndex (j : J) (i : Nat) : Option J :=
  match j with
  | .jarr l => l.get? i
  | _ => none

/-- Python `dict.get(k, d)` whose result is then used as a `str`:
`none` models a raised exception (receiver not a dict, or value of an
unexpected type). -/
def jGetStr (j : J) (k : String) (d : String) : Option String :=
  match j with
  | .jobj l =>
    match (l.find? (fun p => p.1 = k)).map Prod.snd with
    | none => some d
    | some (.jstr s) => some s
    | some _ => none
  | _ => none

/-- Python `dict.get(k)` used as `Optional[str]`. -/
def jGetOptStr (j : J) (k : String) : Option (Option String) :=
  match j with
  | .jobj l =>
    match (l.find? (fun p => p.1 = k)).map Prod.snd with
    | none => some none
    | some (.jstr s) => some (some s)
    | some .null => some none
    | some _ => none
  | _ => none

/-- Python `dict.get(k, d)` whose result is then iterated as a list. -/
def jGetArr (j : J) (k : String) (d : List J) : Option (List J) :=
  match j with
  | .jobj l =>
    match (l.find? (fun p => p.1 = k)).map Prod.snd with
    | none => some d
    | some (.jarr a) => some a
    | some _ => none
  | _ => none

/-- Python truthiness of a JSON value. -/
def jTruthy : J → Bool
  | .null => false
  | .jstr s => s ≠ ""
  | .jnum n => n != 0
  | .jarr l => !l.isEmpty
  | .jobj l => !l.isEmpty

/-- Stringification of a JSON scalar as it would be interpolated into a
URL (responses of the RxNav service carry identifiers as strings). -/
def jAsStr : J → String
  | .jstr s => s
  | .jnum n => toString n
  | _ => ""

/-- Shared body of `get_rxcui`'s response handling:
`data.get("idGroup", {}).get("rxnormId", [])`, wrapped into a list when
the service returned a single value; `none` models a parsing exception. -/
def parseRxcuis (data : J) : Option (List String) := do
  let idGroup ← jDictGet data "idGroup" (J.jobj [])
  let rxnormId ← jDictGet idGroup "rxnormId" (J.jarr [])
  match rxnormId with
  | .jarr l => some (l.map jAsStr)
  | v => some (if jTruthy v then [jAsStr v] else [])

/-- Sanitization in `get_rxcui`:
`re.sub(r'[^\w\s-]', '', drug_name).strip()`. -/
def sanitizeDrugName (s : String) : String :=
  pyStrip (String.mk (s.toList.filter
    (fun c => isWordChar c || pyIsSpace c || c = '-')))

/-- Embedding of `RxNormService.get_rxcui`: returns the resolved identifiers and the
request log.  An empty sanitized name short-circuits with no request; an
HTTP 400 retries once with the sanitized name when it differs from the
original (the source rebuilds the identical URL, so the retry hits the
same endpoint); any other failure yields no results. -/
def get_rxcui (net : Net) (drug_name : String) : List String × List String :=
  let cleaned := sanitizeDrugName drug_name
  if cleaned = "" then ([], [])
  else
    let url := base_url ++ "/rxcui.json?name=" ++ cleaned
    match net url with
    | .err => ([], [url])
    | .ok status body =>
      if 400 ≤ status then
        if status = 400 && drug_name ≠ cleaned then
          match net url with
          | .err => ([], [url, url])
          | .ok s2 b2 =>
            if 400 ≤ s2 then ([], [url, url])
            else ((parseRxcuis b2).getD [], [url, url])
        else ([], [url])
      else ((parseRxcuis body).getD [], [url])

/-- Result of `_get_drug_info` (the `tty` field of the source dict is
never read by any caller and is omitted). -/
structure DrugInfo where
  name : String
  synonym : Option String
deriving Repr, DecidableEq

/-- Parsing of one endpoint response inside `_get_drug_info`; `none`
covers both a raised exception and the fall-through when no branch
returned, either of which moves on to the next endpoint. -/
def parseDrugInfo (data : J) : Option DrugInfo :=
  match data with
  | .jobj fields =>
    if (fields.find? (fun p => p.1 = "allRelatedGroup")).isSome then do
      let arg ← jDictGet data "allRelatedGroup" (J.jobj [])
      let concept_group ← jGetArr arg "conceptGroup" []
      match concept_group with
      | [] => none
      | g0 :: _ => do
        let concepts ← jGetArr g0 "concept" []
        match concepts with
        | [] => none
        | c0 :: _ => do
          let name ← jGetStr c0 "name" ""
          let synonym ← jGetStr c0 "synonym" ""
          some ⟨name, some synonym⟩
    else if (fields.find? (fun p => p.1 = "propValue")).isSome then do
      let pv ← jDictGet data "propValue" (J.jobj [])
      let name ← jGetStr pv "value" ""
      some ⟨name, none⟩
    else if (fields.find? (fun p => p.1 = "displayTerms")).isSome then do
      let dt ← jDictGet data "displayTerms" (J.jobj [])
      let terms ← jGetArr dt "term" []
      match terms with
      | [] => none
      | t0 :: _ => do
        let name ← jGetStr t0 "name" ""
        some ⟨name, none⟩
    else none
  | _ => none

/-- The three lookup endpoints tried by `_get_drug_info`, in order. -/
def drugInfoEndpoints (rxcui : String) : List String :=
  [base_url ++ "/rxcui/" ++ rxcui ++ "/allrelated.json",
   base_url ++ "/rxcui/" ++ rxcui ++ "/property.json?propName=RxNorm%20Name",
   base_url ++ "/rxcui/" ++ rxcui ++ "/property.json?propName=Display%20Name"]

/-- Embedding of `RxNormService._get_drug_info`: try each endpoint in order, accepting
the first HTTP-200 response one of whose recognized shapes yields a
name; every attempt is logged. -/
def _get_drug_info (net : Net) (rxcui : String) : Option DrugInfo × List String :=
  (drugInfoEndpoints rxcui).foldl
    (fun (acc : Option DrugInfo × List String) endp =>
      match acc with
      | (some info, log) => (some info, log)
      | (none, log) =>
        match net endp with
        | .err => (none, log ++ [endp])
        | .ok status data =>
          if status = 200 then (parseDrugInfo data, log ++ [endp])
          else (none, log ++ [endp]))
    (none, [])

/-- Record `app.models.RxNormMapping` (confidence modelled with `ℚ`). -/
structure RxNormMapping where
  rxcui : String
  name : String
  synonym : Option String
  confidence : ℚ
deriving Repr, DecidableEq

/-- Inner concept loop of `_search_alternative`: append a 0.6-confidence
mapping per concept until `max_results` mappings exist. -/
def altConceptLoop (drug_name : String) (max_results : Nat) :
    List J → List RxNormMapping → Option (List RxNormMapping)
  | [], acc => some acc
  | c :: cs, acc =>
    if max_results ≤ acc.length then some acc
    else do
      let rxcui ← jGetStr c "rxcui" ""
      let name ← jGetStr c "name" drug_name
      let synonym ← jGetOptStr c "synonym"
      altConceptLoop drug_name max_results cs
        (acc ++ [⟨rxcui, name, synonym, 6/10⟩])

/-- Outer group loop of `_search_alternative` over
`drugs[:max_results]`. -/
def altGroupLoop (drug_name : String) (max_results : Nat) :
    List J → List RxNormMapping → Option (List RxNormMapping)
  | [], acc => some acc
  | g :: gs, acc => do
    let concepts ← jGetArr g "concept" []
    let acc' ← altConceptLoop drug_name max_results concepts acc
    altGroupLoop drug_name max_results gs acc'

/-- Embedding of `RxNormService._search_alternative`: approximate search through the
`drugs.json` endpoint, queried with the original (unsanitized) name;
non-200 responses and parse exceptions yield no results. -/
def _search_alternative (net : Net) (drug_name : String) (max_results : Nat) :
    List RxNormMapping × List String :=
  let url := base_url ++ "/drugs.json?name=" ++ drug_name
  match net url with
  | .err => ([], [url])
  | .ok status data =>
    if status = 200 then
      let parsed : Option (List RxNormMapping) := do
        let dg ← jDictGet data "drugGroup" (J.jobj [])
        let drugs ← jGetArr dg "conceptGroup" []
        altGroupLoop drug_name max_results (drugs.take max_results) []
      (parsed.getD [], [url])
    else ([], [url])

/-- Embedding of `RxNormService.search_drug`: resolve identifiers via `get_rxcui`,
build one mapping per identifier (confidence 0.9 with a resolved display
name, 0.7 without), and when no mapping resulted fall through to
`_search_alternative`. -/
def search_drug (net : Net) (drug_name : String) (max_results : Nat) :
    List RxNormMapping × List String :=
  let (rxcuis, log1) := get_rxcui net drug_name
  let (mappings, log2) := (rxcuis.take max_results).foldl
    (fun (acc : List RxNormMapping × List String) rxcui =>
      let (info, l) := _get_drug_info net rxcui
      match info with
      | some i => (acc.1 ++ [⟨rxcui, i.name, i.synonym, 9/10⟩], acc.2 ++ l)
      | none => (acc.1 ++ [⟨rxcui, drug_name, none, 7/10⟩], acc.2 ++ l))
    ([], [])
  if mappings = [] then
    let (alt, log3) := _search_alternative net drug_name max_results
    (alt, log1 ++ log2 ++ log3)
  else (mappings, log1 ++ log2)

/-- Record `app.models.DrugInteraction`. -/
structure DrugInteraction where
  drug1 : String
  drug2 : String
  severity : String
  description : String
  recommendation : String
  source : Option String
deriving Repr, DecidableEq

/-- The high-severity keywords of `_parse_interaction_pair`. -/
def severity_high_words : List String :=
  ["severe", "serious", "life-threatening", "contraindicated"]

/-- The low-severity keywords of `_parse_interaction_pair`. -/
def severity_low_words : List String := ["mild", "minor", "minimal"]

/-- Embedding of `RxNormService._parse_interaction_pair`: extract the two concept
names and the description, then classify severity by a case-insensitive
keyword scan of the description ("moderate" appears twice in the source
list, which is semantically a single check); any extraction exception
yields `None`. -/
def _parse_interaction_pair (pair : J) (rxcuis : List String) :
    Option DrugInteraction :=
  (jDictGet pair "interactionConcept" (J.jarr [J.jobj []])).bind fun ic =>
  (jIndex ic 0).bind fun e0 =>
  (jDictGet e0 "minConceptItem" (J.jobj [])).bind fun m0 =>
  (jGetStr m0 "name" "").bind fun drug1_name =>
  (jIndex ic 1).bind fun e1 =>
  (jDictGet e1 "minConceptItem" (J.jobj [])).bind fun m1 =>
  (jGetStr m1 "name" "").bind fun drug2_name =>
  (jGetStr pair "description" "No description available").bind fun description =>
  let desc_lower := pyLower description
  let severity :=
    if severity_high_words.any (fun w => pyIn w desc_lower) then "high"
    else if ["moderate", "moderate"].any (fun w => pyIn w desc_lower) then "medium"
    else if severity_low_words.any (fun w => pyIn w desc_lower) then "low"
    else "medium"
  some ⟨drug1_name, drug2_name, severity, description,
        "Consult healthcare provider before combining these medications",
        some "RxNorm"⟩

/-- Normalization `if not isinstance(x, list): x = [x]` applied at each
nesting level of the interaction response. -/
def asList : J → List J
  | .jarr l => l
  | v => [v]

/-- Parsing of the `interactionTypeGroup → interactionType →
interactionPair` nesting inside `get_drug_interactions`; nodes that are
not objects carrying the expected key are skipped. -/
def parseInteractionData (data : J) (rxcuis : List String) : List DrugInteraction :=
  match jDictGet data "interactionTypeGroup" J.null with
  | none => []
  | some v =>
    if jIsNull v then []
    else
      (asList v).foldl (fun acc group =>
        match jDictGet group "interactionType" J.null with
        | none => acc
        | some tv =>
          if jIsNull tv then acc
          else
            (asList tv).foldl (fun acc2 itype =>
              match jDictGet itype "interactionPair" J.null with
              | none => acc2
              | some pv =>
                if jIsNull pv then acc2
                else
                  (asList pv).foldl (fun acc3 pair =>
                    match _parse_interaction_pair pair rxcuis with
                    | some i => acc3 ++ [i]
                    | none => acc3) acc2) acc) []

/-- Python `"+".join(rxcuis)`. -/
def joinPlus : List String → String
  | [] => ""
  | [s] => s
  | s :: rest => s ++ "+" ++ joinPlus rest

/-- Embedding of `RxNormService.get_drug_interactions`: fewer than two identifiers
short-circuits to an empty list with no request; otherwise one request to
the interaction endpoint, whose response is parsed tolerating
object-vs-array nesting; any HTTP or parse failure yields an empty
list. -/
def get_drug_interactions (net : Net) (rxcuis : List String) :
    List DrugInteraction × List String :=
  if rxcuis.length < 2 then ([], [])
  else
    let url := base_url ++ "/interaction/list.json?rxcuis=" ++ joinPlus rxcuis
    match net url with
    | .err => ([], [url])
    | .ok status data =>
      if 400 ≤ status then ([], [url])
      else (parseInteractionData data rxcuis, [url])

/-- Record `app.models.SafetyAlert`. -/
structure SafetyAlert where
  severity : String
  message : String
  recommendation : String
  reference : Option String
deriving Repr, DecidableEq

/-- The fixed high-risk list of `check_dosage_safety`. -/
def high_risk_meds : List String :=
  ["warfarin", "digoxin", "insulin", "lithium", "phenytoin"]

/-- Embedding of `RxNormService.check_dosage_safety`: the three independent rules,
appending in source order (age, then weight, then high-risk name match by
case-insensitive substring).  Patient age is modelled as `ℤ` and weight
as `ℚ`; the interpolated numbers in the message texts render via
`toString`, which differs from Python float formatting only in
presentation. -/
def check_dosage_safety (medication : ExtractedMedication) (age : ℤ)
    (weight_kg : ℚ) : List SafetyAlert :=
  let alerts : List SafetyAlert := []
  let alerts := if age < 18 then
      alerts ++ [⟨"medium",
        "Patient is under 18 years old (" ++ toString age ++ " years)",
        "Verify age-appropriate dosing for this medication",
        some "Pediatric dosing guidelines"⟩]
    else alerts
  let alerts := if weight_kg < 30 then
      alerts ++ [⟨"medium",
        "Patient weight is low (" ++ toString weight_kg ++ " kg)",
        "Consider weight-based dosing adjustments",
        some "Weight-based dosing guidelines"⟩]
    else alerts
  let alerts := if high_risk_meds.any
      (fun med => pyIn med (pyLower medication.drug_name)) then
      alerts ++ [⟨"high",
        medication.drug_name ++ " is a high-risk medication",
        "Monitor closely and verify dosing",
        some "High-risk medication protocols"⟩]
    else alerts
  alerts

/-- A sample interaction-pair payload used to instantiate the severity
theorem on a concrete input. -/
def sample_interaction_pair : J :=
  J.jobj
    [("interactionConcept",
      J.jarr [J.jobj [("minConceptItem", J.jobj [("name", J.jstr "warfarin")])],
              J.jobj [("minConceptItem", J.jobj [("name", J.jstr "aspirin")])]]),
     ("description", J.jstr "This combination can cause severe bleeding")]

/-! ### Aggregate analysis confidence (`app/api/prescriptions.py`) -/

/-- The aggregate-confidence computation of `analyze_prescription`
(lines 89–93): the arithmetic mean of the extracted medications'
confidences, and 0.0 for an empty extraction (inside the endpoint that
branch sits behind an earlier guard that rejects empty extractions with
HTTP 400, so it is the computation's own else-branch). -/
def analysis_confidence (meds : List ExtractedMedication) : ℚ :=
  if meds ≠ [] then
    (meds.map (fun m => m.confidence)).sum / meds.length
  else 0

/-! ### Model-based extraction and the coordinator
(`app/services/ner_service.py`) -/

/-- One aggregated entity produced by the external tagger pipeline. -/
structure Entity where
  entity_group : String
  word : String
  score : ℚ

/-- The partial medication dict accumulated by
`_extract_with_hf_model`. -/
structure PartialMed where
  drug_name : String
  confidence : ℚ
  strength : Option String := none
  frequency : Option String := none
  duration : Option String := none

/-- Embedding of `MedicalNERService._create_medication`: route defaults to "oral",
confidence is capped at 1.0; construction goes through the pydantic
validator, which title-cases the stored drug name. -/
def _create_medication (d : PartialMed) : ExtractedMedication :=
  mkExtractedMedication d.drug_name d.strength d.frequency d.duration "oral"
    (min d.confidence 1)

/-- The entity loop of `_extract_with_hf_model`: a drug-class label
flushes the current medication and opens a new one; dosage, frequency
and duration labels annotate the current one when it exists. -/
def hfLoop : List Entity → Option PartialMed → List ExtractedMedication →
    List ExtractedMedication
  | [], current, meds =>
    match current with
    | some c => meds ++ [_create_medication c]
    | none => meds
  | e :: es, current, meds =>
    let label := pyUpper e.entity_group
    if label = "DRUG" || label = "MEDICATION" || label = "CHEMICAL" then
      let meds' := match current with
        | some c => meds ++ [_create_medication c]
        | none => meds
      hfLoop es (some ⟨e.word, e.score, none, none, none⟩) meds'
    else if (label = "DOSAGE" || label = "STRENGTH") && current.isSome then
      hfLoop es (current.map (fun c => { c with strength := some e.word })) meds
    else if label = "FREQUENCY" && current.isSome then
      hfLoop es (current.map (fun c => { c with frequency := some e.word })) meds
    else if label = "DURATION" && current.isSome then
      hfLoop es (current.map (fun c => { c with duration := some e.word })) meds
    else hfLoop es current meds

/-- Embedding of `MedicalNERService._extract_with_hf_model`, over an abstract tagger
pipeline that either returns entities or raises (the internal
`try/except` turns a raise into an empty result). -/
def _extract_with_hf_model (pipe : String → Except String (List Entity))
    (text : String) : List ExtractedMedication :=
  match pipe text with
  | .error _ => []
  | .ok entities => hfLoop entities none []

/-- Embedding of `MedicalNERService.extract_medications`: preprocess, try the model
path when a pipeline is loaded, and fall back to the regex extractor when
the model path is unavailable or produced nothing. -/
def extract_medications
    (pipe : Option (String → Except String (List Entity)))
    (text : String) : List ExtractedMedication :=
  let cleaned := _preprocess_text text
  match pipe with
  | some p =>
    let medications := _extract_with_hf_model p cleaned
    if medications ≠ [] then medications
    else _extract_with_regex cleaned
  | none => _extract_with_regex cleaned

/-! ### Claims -/

set_option maxHeartbeats 2000000 in
unseal Rat.add Rat.mul Rat.inv in
/-- C1, counterexample.  The claim states that every text containing
"Aspirin 100mg OD for 7 days" yields exactly one medication (Aspirin /
100mg / "once daily" / "7 days" / confidence 0.95).  On the text equal to
that phrase itself, the extractor in fact returns four medications: the
multi-word drug-name group combined with IGNORECASE lets lowercase
phrases such as "once daily" match as drug candidates, `_is_medication`
accepts unknown tokens by default, the frequency token captured next to
the strength is "once" (absent from `frequency_map`, hence not
normalized), and no duration group participates, so the Aspirin record
scores 0.6+0.2+0.1 = 0.9, not 0.95.  Stored drug names are title-cased
by the `ExtractedMedication` pydantic validator. -/
theorem C1_counterexample :
    (_extract_with_regex (_preprocess_text "Aspirin 100mg OD for 7 days")).length = 4 ∧
    (_extract_with_regex (_preprocess_text "Aspirin 100mg OD for 7 days")).length ≠ 1 ∧
    (_extract_with_regex (_preprocess_text "Aspirin 100mg OD for 7 days")).map
      (fun m => m.drug_name) = ["Aspirin", "Once Daily", "Once Daily For", "Days"] := by
  refine ⟨by decide, by decide, by decide⟩

set_option maxHeartbeats 2000000 in
unseal Rat.add Rat.mul Rat.inv in
/-- C1, amended.  For the text "Aspirin 100mg OD for 7 days", after
abbreviation normalization ("OD" → "once daily") the pattern extractor
returns four medications, the first being Aspirin with strength "100mg",
frequency "once" (not normalized, since "once" is not in
`frequency_map`), no duration, route "oral" and confidence 0.9; the
remaining three are spurious candidates accepted because
`_is_medication` defaults to accepting unknown tokens, stored by the
pydantic validator in title case as "Once Daily", "Once Daily For" and
"Days". -/
theorem C1_extraction_on_sample :
    _extract_with_regex (_preprocess_text "Aspirin 100mg OD for 7 days") =
      [⟨"Aspirin", some "100mg", some "once", none, "oral", 9/10⟩,
       ⟨"Once Daily", some "for", some "7 days", none, "oral", 9/10⟩,
       ⟨"Once Daily For", some "7", none, none, "oral", 8/10⟩,
       ⟨"Days", none, none, none, "oral", 6/10⟩] := by decide

/-- C2, counterexample.  The claim states that a token containing a
common non-drug clinical word is always rejected, even when it also
matches a suffix or beginning.  "cream" is itself in `non_med_words`,
yet `_is_medication` accepts it: the suffix check (here "am") runs
before the non-drug-word rejection. -/
theorem C2_counterexample :
    _is_medication "cream" = true ∧
    "cream" ∈ non_med_words ∧
    pyEndsWith (pyLower "cream") "am" = true := by decide

/-- C2, amended.  `_is_medication` accepts a token iff it contains a
lexicon entry as a substring, OR ends in a known suffix, OR starts with a
known beginning, OR contains no common non-drug clinical word; the
non-drug-word rejection therefore only applies to tokens matching none of
the three accept conditions, and tokens matching nothing at all are
accepted by default. -/
theorem C2_is_medication_characterization :
    ∀ t : String,
      _is_medication t =
        (common_meds.any (fun med => pyIn med (pyLower t))
         || med_suffixes.any (fun suf => pyEndsWith (pyLower t) suf)
         || med_beginnings.any (fun pre => pyStartsWith (pyLower t) pre)
         || !(non_med_words.any (fun w => pyIn w (pyLower t)))) := by
  intro t
  unfold _is_medication
  cases h1 : common_meds.any (fun med => pyIn med (pyLower t)) <;>
  cases h2 : med_suffixes.any (fun suf => pyEndsWith (pyLower t) suf) <;>
  cases h3 : med_beginnings.any (fun pre => pyStartsWith (pyLower t) pre) <;>
  cases h4 : non_med_words.any (fun w => pyIn w (pyLower t)) <;>
  simp [h1, h2, h3, h4]

unseal Rat.add Rat.mul Rat.inv in
/-- C3.  `check_dosage_safety` evaluates its three rules independently
and emits every matching alert: the number of alerts is the number of
satisfied rules, a satisfied age rule contributes a medium alert, a
satisfied weight rule a medium alert, and a high-risk name match a high
alert; concretely, (age 10, weight 40, "Warfarin") yields exactly the
severities ["medium", "high"] and (age 45, weight 70, "Paracetamol")
yields no alert. -/
theorem C3_dosage_safety_rules :
    (∀ (med : ExtractedMedication) (age : ℤ) (w : ℚ),
      ((check_dosage_safety med age w).length =
        ((if age < 18 then 1 else 0) + (if w < 30 then 1 else 0) +
          (if high_risk_meds.any (fun m => pyIn m (pyLower med.drug_name)) then 1 else 0)))
      ∧ (age < 18 → ∃ a ∈ check_dosage_safety med age w, a.severity = "medium")
      ∧ (w < 30 → ∃ a ∈ check_dosage_safety med age w, a.severity = "medium")
      ∧ (high_risk_meds.any (fun m => pyIn m (pyLower med.drug_name)) = true →
          ∃ a ∈ check_dosage_safety med age w, a.severity = "high"))
    ∧ ((check_dosage_safety ⟨"Warfarin", none, none, none, "oral", 1⟩ 10 40).map
        (fun a => a.severity) = ["medium", "high"])
    ∧ check_dosage_safety ⟨"Paracetamol", none, none, none, "oral", 1⟩ 45 70 = [] := by
  refine ⟨?_, by decide, by decide⟩
  intro med age w
  unfold check_dosage_safety
  refine ⟨?_, ?_, ?_, ?_⟩ <;> split_ifs <;> simp_all

unseal Rat.add Rat.mul Rat.inv in
/-- Witness for C3: applying the rule decomposition at the concrete
input (Warfarin, age 10, weight 40) discharges the high-risk
hypothesis. -/
theorem C3_dosage_safety_rules_witness :
    ∃ a ∈ check_dosage_safety ⟨"Warfarin", none, none, none, "oral", 1⟩ 10 40,
      a.severity = "high" :=
  (C3_dosage_safety_rules.1 ⟨"Warfarin", none, none, none, "oral", 1⟩ 10 40).2.2.2
    (by decide)

/-- C4, counterexample.  The claim states that a drug name that
sanitizes to the empty string causes `search_drug` to return an empty
list with no network call at all.  With an oracle answering HTTP 200
with an empty JSON object, `search_drug` on "!!!" does issue one request
— the alternative fuzzy search `drugs.json` endpoint, queried with the
original unsanitized name — so the request log is nonempty. -/
theorem C4_counterexample :
    sanitizeDrugName "!!!" = "" ∧
    (search_drug (fun _ => NetResult.ok 200 (J.jobj [])) "!!!" 5).2 =
      [base_url ++ "/drugs.json?name=!!!"] ∧
    (search_drug (fun _ => NetResult.ok 200 (J.jobj [])) "!!!" 5).2 ≠ [] := by
  refine ⟨by decide, by decide, by decide⟩

/-- C4, amended.  When the drug name sanitizes to the empty string,
`get_rxcui` returns no identifiers and issues no request, and
`search_drug` consequently degenerates to exactly the alternative fuzzy
search (`drugs.json` with the original name): same mappings, same
request log. -/
theorem C4_empty_sanitize (net : Net) (drug_name : String) (max_results : Nat)
    (h : sanitizeDrugName drug_name = "") :
    get_rxcui net drug_name = ([], []) ∧
    search_drug net drug_name max_results =
      _search_alternative net drug_name max_results := by
  have h1 : get_rxcui net drug_name = ([], []) := by
    unfold get_rxcui
    simp [h]
  refine ⟨h1, ?_⟩
  unfold search_drug
  rw [h1]
  rcases hX : _search_alternative net drug_name max_results with ⟨alt, log3⟩
  simp [hX]

/-- Witness for C4: the amended statement applied at "!!!" with the
trivial 200-empty-object oracle. -/
theorem C4_empty_sanitize_witness :
    get_rxcui (fun _ => NetResult.ok 200 (J.jobj [])) "!!!" = ([], []) :=
  (C4_empty_sanitize (fun _ => NetResult.ok 200 (J.jobj [])) "!!!" 5 (by decide)).1

/-- C5.  The extraction coordinator returns exactly one path's output:
the model path's when a pipeline exists and produced a nonempty result,
otherwise the pattern extractor's; a pipeline exception (the
`Except.error` case, absorbed inside `_extract_with_hf_model`) escalates
to the pattern path; and the result is always one of the two lists —
never a merge.  Totality of `extract_medications` models the outer
`try/except` returning a list in all cases. -/
theorem C5_coordinator_policy :
    ∀ (pipe : Option (String → Except String (List Entity))) (text : String),
      (extract_medications pipe text = _extract_with_regex (_preprocess_text text)
        ∨ ∃ p, pipe = some p ∧
            extract_medications pipe text = _extract_with_hf_model p (_preprocess_text text))
      ∧ (pipe = none →
          extract_medications pipe text = _extract_with_regex (_preprocess_text text))
      ∧ (∀ p, pipe = some p → _extract_with_hf_model p (_preprocess_text text) ≠ [] →
          extract_medications pipe text = _extract_with_hf_model p (_preprocess_text text))
      ∧ (∀ p, pipe = some p → _extract_with_hf_model p (_preprocess_text text) = [] →
          extract_medications pipe text = _extract_with_regex (_preprocess_text text))
      ∧ (∀ p msg, pipe = some p → p (_preprocess_text text) = Except.error msg →
          extract_medications pipe text = _extract_with_regex (_preprocess_text text)) := by
  intro pipe text
  cases pipe with
  | none =>
    refine ⟨Or.inl rfl, fun _ => rfl, ?_, ?_, ?_⟩
    · intro p hp
      exact Option.noConfusion hp
    · intro p hp
      exact Option.noConfusion hp
    · intro p msg hp
      exact Option.noConfusion hp
  | some p =>
    by_cases h : _extract_with_hf_model p (_preprocess_text text) = []
    · have he : extract_medications (some p) text =
          _extract_with_regex (_preprocess_text text) := by
        unfold extract_medications
        simp [h]
      refine ⟨Or.inl he, ?_, ?_, ?_, ?_⟩
      · intro hn
        exact Option.noConfusion hn
      · intro q hq hne
        obtain rfl := Option.some.inj hq
        exact absurd h hne
      · intro q hq _
        exact he
      · intro q msg hq _
        exact he
    · have he : extract_medications (some p) text =
          _extract_with_hf_model p (_preprocess_text text) := by
        unfold extract_medications
        simp [h]
      refine ⟨Or.inr ⟨p, rfl, he⟩, ?_, ?_, ?_, ?_⟩
      · intro hn
        exact Option.noConfusion hn
      · intro q hq _
        obtain rfl := Option.some.inj hq
        exact he
      · intro q hq hz
        obtain rfl := Option.some.inj hq
        exact absurd hz h
      · intro q msg hq herr
        obtain rfl := Option.some.inj hq
        refine absurd ?_ h
        unfold _extract_with_hf_model
        rw [herr]

/-- Witness for C5: a pipeline that raises escalates to the pattern
path. -/
theorem C5_coordinator_policy_witness :
    extract_medications (some (fun _ => Except.error "model failure")) "Aspirin" =
      _extract_with_regex (_preprocess_text "Aspirin") :=
  (C5_coordinator_policy (some (fun _ => Except.error "model failure")) "Aspirin").2.2.2.2
    (fun _ => Except.error "model failure") "model failure" rfl rfl

unseal Rat.add Rat.mul Rat.inv in
/-- C6.  The aggregate analysis confidence is the arithmetic mean of the
extracted medications' confidences (stated multiplicatively: confidence
times the count equals the sum), is 0 for an empty extraction, and
equals 0.7 for two medications with confidences 0.9 and 0.5. -/
theorem C6_aggregate_confidence :
    (∀ meds : List ExtractedMedication, meds ≠ [] →
      analysis_confidence meds * (meds.length : ℚ) =
        (meds.map (fun m => m.confidence)).sum)
    ∧ analysis_confidence [] = 0
    ∧ analysis_confidence
        [⟨"Aspirin", none, none, none, "oral", 9/10⟩,
         ⟨"Ibuprofen", none, none, none, "oral", 5/10⟩] = 7/10 := by
  refine ⟨?_, by decide, by decide⟩
  intro meds h
  unfold analysis_confidence
  rw [if_pos h, div_mul_cancel₀]
  exact Nat.cast_ne_zero.mpr (fun hl => h (List.length_eq_zero.mp hl))

unseal Rat.add Rat.mul Rat.inv in
/-- Witness for C6: the mean property applied to a singleton list. -/
theorem C6_aggregate_confidence_witness :
    analysis_confidence [⟨"Aspirin", none, none, none, "oral", 9/10⟩] *
      (([⟨"Aspirin", none, none, none, "oral", 9/10⟩] :
          List ExtractedMedication).length : ℚ) =
      (([⟨"Aspirin", none, none, none, "oral", 9/10⟩] :
          List ExtractedMedication).map (fun m => m.confidence)).sum :=
  C6_aggregate_confidence.1 _ (List.cons_ne_nil _ _)

/-- C7.  Every successfully parsed interaction pair carries the severity
derived from a case-insensitive scan of its description in priority
order: any high keyword gives "high"; otherwise "moderate" gives
"medium"; otherwise any low keyword gives "low"; otherwise the default
is "medium". -/
theorem C7_severity_from_description (pair : J) (rxcuis : List String)
    (di : DrugInteraction)
    (h : _parse_interaction_pair pair rxcuis = some di) :
    di.severity =
      (if severity_high_words.any (fun w => pyIn w (pyLower di.description)) then "high"
       else if pyIn "moderate" (pyLower di.description) then "medium"
       else if severity_low_words.any (fun w => pyIn w (pyLower di.description)) then "low"
       else "medium") := by
  simp only [_parse_interaction_pair, Option.bind_eq_some, Option.some.injEq] at h
  obtain ⟨ic, -, e0, -, m0, -, d1, -, e1, -, m1, -, d2, -, desc, -, hdi⟩ := h
  subst hdi
  simp only [List.any_cons, List.any_nil, Bool.or_false, Bool.or_self]

/-- Witness for C7: a concrete pair whose description contains "severe"
is classified "high". -/
theorem C7_severity_from_description_witness :
    ∃ di : DrugInteraction,
      _parse_interaction_pair sample_interaction_pair ["1", "2"] = some di ∧
      di.severity = "high" := by
  have h : _parse_interaction_pair sample_interaction_pair ["1", "2"] =
      some ⟨"warfarin", "aspirin", "high",
            "This combination can cause severe bleeding",
            "Consult healthcare provider before combining these medications",
            some "RxNorm"⟩ := by decide
  exact ⟨_, h, (C7_severity_from_description sample_interaction_pair ["1", "2"] _ h).trans
    (by decide)⟩

/-- C8.  With fewer than two identifiers, `get_drug_interactions`
returns an empty interaction list and an empty request log — no network
call is made; as a pure function of the oracle and the identifier list,
repeated calls on the same input trivially agree. -/
theorem C8_interactions_guard (net : Net) (rxcuis : List String)
    (h : rxcuis.length < 2) :
    get_drug_interactions net rxcuis = ([], []) := by
  unfold get_drug_interactions
  simp [h]

/-- Witness for C8: a singleton identifier list. -/
theorem C8_interactions_guard_witness :
    get_drug_interactions (fun _ => NetResult.err) ["161"] = ([], []) :=
  C8_interactions_guard (fun _ => NetResult.err) ["161"] (by decide)

/-- C9.  `_preprocess_text` replaces clinical abbreviations
case-insensitively only as standalone word-boundary tokens: "bid" alone
(in any case) becomes "twice daily", also in the middle of a sentence,
while "bid" inside "forbidding" is left alone; the empty input maps to
the empty string (and the function is total, modelling "never
fails"). -/
theorem C9_preprocess_word_boundaries :
    _preprocess_text "" = ""
    ∧ _preprocess_text "bid" = "twice daily"
    ∧ _preprocess_text "BID" = "twice daily"
    ∧ _preprocess_text "Stop bid now" = "Stop twice daily now"
    ∧ _preprocess_text "forbidding" = "forbidding" := by
  refine ⟨by decide, by decide, by decide, by decide, by decide⟩

/-- C10.  Any medication whose lowercased name contains a high-risk
entry as a substring — not only as an exact match — triggers the
high-severity alert, for example "Insulin Glargine". -/
theorem C10_highrisk_substring_alert (med : ExtractedMedication) (age : ℤ) (w : ℚ)
    (h : high_risk_meds.any (fun m => pyIn m (pyLower med.drug_name)) = true) :
    ∃ a ∈ check_dosage_safety med age w,
      a.severity = "high" ∧
      a.message = med.drug_name ++ " is a high-risk medication" ∧
      a.recommendation = "Monitor closely and verify dosing" := by
  unfold check_dosage_safety
  simp only [h]
  split_ifs <;>
    exact ⟨⟨"high", med.drug_name ++ " is a high-risk medication",
            "Monitor closely and verify dosing",
            some "High-risk medication protocols"⟩,
           by simp, rfl, rfl, rfl⟩

/-- Witness for C10: "Insulin Glargine" contains "insulin" and receives
the high-risk alert. -/
theorem C10_highrisk_substring_alert_witness :
    ∃ a ∈ check_dosage_safety ⟨"Insulin Glargine", none, none, none, "oral", 1⟩ 45 70,
      a.severity = "high" ∧
      a.message = "Insulin Glargine" ++ " is a high-risk medication" ∧
      a.recommendation = "Monitor closely and verify dosing" :=
  C10_highrisk_substring_alert ⟨"Insulin Glargine", none, none, none, "oral", 1⟩ 45 70
    (by decide)

end Xcoders
